import Mathlib

/-!
# Verification of the iterative DNS resolver

Shallow embedding of `src/main.go` / `src/resolver.go` (package `main`):
the functions `getRootServers`, `outgoingDnsQuery`, `dnsQuery` and
`handlePacket`, built on `golang.org/x/net/dns/dnsmessage`.

Modelling decisions, so that every definition can be diffed against the Go
source line by line:

* Network I/O is an oracle `Oracle : Nat → Except DnsErr UpstreamReply`,
  indexed by a running counter of network round-trips.  A successful oracle
  value stands for a reply whose header and sections parsed without error
  (`p.Start`, `AllQuestions`, `AllAnswers`, `AllAuthorities`,
  `AllAdditionals` all succeeded and the question count matched); an
  `Except.error` value stands for any of the environment-dependent failures
  of `outgoingDnsQuery` or of the section parsers (write/read failure,
  malformed reply, question-count mismatch).  The two failures of
  `outgoingDnsQuery` that are decided by the arguments alone are computed,
  not left to the oracle: packing a message whose question name is not
  canonical fails (`errNonCanonicalName` in the wire codec: the name is
  empty or does not end in a dot), and an empty server list leaves
  `conn == nil` after the dial loop (resolver.go line 67).
* Resource records carry their body; the type code is derived from the body
  (`Resource.rtype`), mirroring that the dnsmessage parser always builds an
  `AResource` body for type-A records and an `NSResource` body for type-NS
  records, so the Go type assertions `authority.Body.(*dnsmessage.NSResource)`
  and `additional.Body.(*dnsmessage.AResource)` are total.
* `dnsQuery` is recursive in Go with no depth bound (the missing-glue
  fallback calls `dnsQuery` again).  The embedding adds an explicit `fuel`
  for the recursion *depth* only; exhausted fuel surfaces as the artificial
  error `DnsErr.fuelExhausted`, which the fallback treats exactly like any
  other failed sub-resolution (logged and skipped in Go).  The per-level
  3-round loop is the source's own bound (resolver.go line 121) and does not
  consume fuel.
* `MustNewName` (dnsmessage) panics exactly when `NewName` fails, and
  `NewName` fails only when the name is longer than 255 bytes
  (`newNameOk`); a panic is modelled as the distinguished result
  `Outcome.panicked`, which propagates (there is no `recover` in the
  source).
* Go zero values: a freshly literal-constructed `dnsmessage.Message` or
  `Header` has all unmentioned fields zero/false; `emptyHeader` is that
  zero value.
* The execution of one `dnsQuery` call is instrumented: `QueryTrace`
  records, besides the result, the number of loop iterations entered at
  this level (each iteration performs exactly one `outgoingDnsQuery` call
  at this level) and the list of nameserver hostnames for which a
  recursive sub-resolution was actually issued at this level, in order.
* The random transaction ID: `crypto/rand.Int(rand.Reader, 65535)` draws
  uniformly from `[0, 65535)`; the random source is an explicit input `r`
  and the drawn value is `outgoingId r = r % 65535`, which ranges over
  exactly the values `rand.Int` can return.
-/

namespace DnsServer

/-- Resource record type code for A records (`dnsmessage.TypeA`). -/
def typeA : Nat := 1

/-- Resource record type code for NS records (`dnsmessage.TypeNS`). -/
def typeNS : Nat := 2

/-- Class code for INET (`dnsmessage.ClassINET`). -/
def classINET : Nat := 1

/-- Result code Success (`dnsmessage.RCodeSuccess`, the `RCode` zero value). -/
def rcodeSuccess : Nat := 0

/-- Result code ServerFailure (`dnsmessage.RCodeServerFailure`). -/
def rcodeServerFailure : Nat := 2

/-- Result code NameError (`dnsmessage.RCodeNameError`). -/
def rcodeNameError : Nat := 3

/-- An IPv4 address, as the list of its four bytes (the `net.IP` slice
`additional.Body.(*dnsmessage.AResource).A[:]`). -/
abbrev IP := List Nat

/-- `dnsmessage.Question`: a name (the wire-format string, as produced by
`Name.String()`), a type code and a class code. -/
structure Question where
  name : String
  qtype : Nat
  qclass : Nat
deriving DecidableEq

/-- The body of a resource record: an A body with an IPv4 address, an NS
body with a target hostname (`NS.String()`), or any other record type,
kept opaque together with its type code. -/
inductive RBody where
  | a (ip : IP)
  | ns (host : String)
  | other (code : Nat)
deriving DecidableEq

/-- `dnsmessage.ResourceHeader` owner name plus the body; TTL and class are
never read by the resolver and are omitted. -/
structure Resource where
  name : String
  body : RBody
deriving DecidableEq

/-- The record's type code (`Header.Type`), derived from the body: the
dnsmessage parser always pairs type A with an `AResource` body and type NS
with an `NSResource` body. -/
def Resource.rtype (r : Resource) : Nat :=
  match r.body with
  | .a _ => typeA
  | .ns _ => typeNS
  | .other code => code

/-- The Go type assertion `authority.Body.(*dnsmessage.NSResource).NS.String()`;
only evaluated under the guard `authority.Header.Type == dnsmessage.TypeNS`,
where the body is an NS body by construction. -/
def nsHost (r : Resource) : String :=
  match r.body with
  | .ns host => host
  | _ => ""

/-- The Go type assertion `additional.Body.(*dnsmessage.AResource).A[:]`;
only evaluated under the guard `additional.Header.Type == dnsmessage.TypeA`,
where the body is an A body by construction. -/
def ipOf (r : Resource) : IP :=
  match r.body with
  | .a ip => ip
  | _ => []

/-- `dnsmessage.Header`, with exactly its fields (ID truncated to 16 bits
on the Go side is modelled where the ID is written). -/
structure Header where
  id : Nat
  response : Bool
  opCode : Nat
  authoritative : Bool
  truncated : Bool
  recursionDesired : Bool
  recursionAvailable : Bool
  authenticData : Bool
  checkingDisabled : Bool
  rcode : Nat
deriving DecidableEq

/-- `dnsmessage.Message`. -/
structure Message where
  header : Header
  questions : List Question
  answers : List Resource
  authorities : List Resource
  additionals : List Resource
deriving DecidableEq

/-- The zero value of `dnsmessage.Header`. -/
def emptyHeader : Header :=
  { id := 0, response := false, opCode := 0, authoritative := false,
    truncated := false, recursionDesired := false, recursionAvailable := false,
    authenticData := false, checkingDisabled := false, rcode := 0 }

/-- The message returned on an authoritative reply (resolver.go lines
136-143): only the Response flag is set and only the answer section is
filled. -/
def resolvedMessage (answers : List Resource) : Message :=
  { header := { emptyHeader with response := true }, questions := [],
    answers := answers, authorities := [], additionals := [] }

/-- The message returned when the authority section is empty (resolver.go
lines 152-158): only the result code is set. -/
def nameErrorMessage : Message :=
  { header := { emptyHeader with rcode := rcodeNameError }, questions := [],
    answers := [], authorities := [], additionals := [] }

/-- The message returned after the 3-round loop is exhausted (resolver.go
lines 226-230): only the result code is set. -/
def serverFailureMessage : Message :=
  { header := { emptyHeader with rcode := rcodeServerFailure }, questions := [],
    answers := [], authorities := [], additionals := [] }

/-- A successfully received and fully parsed upstream reply: its header and
the three record sections. -/
structure UpstreamReply where
  header : Header
  answers : List Resource
  authorities : List Resource
  additionals : List Resource
deriving DecidableEq

/-- The failures a query round can produce.  `packErr` is `message.Pack()`
failing (resolver.go line 48), `connectErr` is `conn == nil` after the dial
loop (line 67), `netErr`/`questionCountErr` stand for the
environment-reported failures (write, read, parse, question-count
mismatch), and `fuelExhausted` is the artificial out-of-model-fuel marker
(see the file header). -/
inductive DnsErr where
  | packErr
  | connectErr
  | netErr (code : Nat)
  | questionCountErr
  | fuelExhausted
deriving DecidableEq

/-- The result of one `dnsQuery` call: a returned message, a returned
error, or a runtime panic (which Go never catches here). -/
inductive Outcome where
  | ok (m : Message)
  | err (e : DnsErr)
  | panicked
deriving DecidableEq

/-- The network environment: reply (or failure) of the n-th network
round-trip of the whole execution. -/
abbrev Oracle := Nat → Except DnsErr UpstreamReply

/-- The recursive sub-resolver as seen by one level of `dnsQuery`: a
question and the current round-trip counter give an outcome and the new
counter. -/
abbrev Recur := Question → Nat → Outcome × Nat

/-- `Name.pack` of the wire codec succeeds on the names reaching it here
iff the name is non-empty and ends in a dot (`errNonCanonicalName`
otherwise); a question message packs iff its question's name does. -/
def packableName (s : String) : Bool :=
  match s.data.getLast? with
  | some c => c == '.'
  | none => false

/-- `dnsmessage.NewName` fails (and hence `MustNewName` panics) exactly
when the name is longer than the 255 bytes of `Name.Data`. -/
def newNameOk (s : String) : Bool :=
  decide (s.length ≤ 255)

/-- `max := ^uint16(0)` (resolver.go line 30). -/
def outgoingIdMax : Nat := 65535

/-- The transaction ID drawn for one outgoing query:
`rand.Int(rand.Reader, big.NewInt(65535))` is uniform on `[0, 65535)`, so
with the random source modelled as the input `r` the drawn value is
`r % 65535`. -/
def outgoingId (r : Nat) : Nat := r % outgoingIdMax

/-- The query message built by `outgoingDnsQuery` (resolver.go lines
39-46): the random ID truncated to `uint16`, Response unset, OpCode 0, the
single question; all other fields are Go zero values. -/
def buildQueryMessage (r : Nat) (question : Question) : Message :=
  { header := { emptyHeader with id := outgoingId r % 65536 },
    questions := [question], answers := [], authorities := [], additionals := [] }

/-- `getRootServers()`: the thirteen-comma string `ROOT_SERVERS` split and
parsed, in order (main package, resolver.go lines 14-24). -/
def getRootServers : List IP :=
  [[198, 41, 0, 4], [199, 9, 14, 201], [192, 33, 4, 12], [199, 7, 91, 13],
   [192, 203, 230, 10], [192, 5, 5, 241], [192, 112, 36, 4], [198, 97, 190, 53]]

/-- The question built for a missing-glue sub-resolution (resolver.go lines
201-205): the nameserver hostname, type A, class INET. -/
def nsQuestion (nameserver : String) : Question :=
  { name := nameserver, qtype := typeA, qclass := classINET }

/-- `outgoingDnsQuery` (resolver.go lines 26-114) at the granularity the
resolver observes: packing fails deterministically on a non-canonical
question name; an empty server list deterministically fails the dial loop;
otherwise the environment decides, consuming one round-trip of the
oracle. -/
def outgoingDnsQuery (oracle : Oracle) (ctr : Nat) (servers : List IP)
    (question : Question) : Except DnsErr UpstreamReply × Nat :=
  if !packableName question.name then (.error .packErr, ctr)
  else if servers.isEmpty then (.error .connectErr, ctr)
  else (oracle ctr, ctr + 1)

/-- Resolver.go lines 161-168: `nameservers := make([]string, len(authorities))`
followed by writing `NS.String()` into the slots whose authority is an NS
record; non-NS slots keep the zero value `""`. -/
def nameserversOf (authorities : List Resource) : List String :=
  authorities.map (fun authority =>
    if authority.rtype == typeNS then nsHost authority else "")

/-- Resolver.go lines 184-193: for each additional A record, for each
nameserver hostname, an exact string comparison of the owner name against
the hostname; each match appends the record's IPv4 address. -/
def glueServers (nameservers : List String) : List Resource → List IP
  | [] => []
  | additional :: rest =>
    (if additional.rtype == typeA then
      nameservers.filterMap (fun nameserver =>
        if additional.name == nameserver then some (ipOf additional) else none)
    else []) ++ glueServers nameservers rest

/-- Resolver.go lines 214-218: the A-typed answers of a sub-resolution
response, as addresses. -/
def aAnswerIPs (answers : List Resource) : List IP :=
  answers.filterMap (fun answer =>
    if answer.rtype == typeA then some (ipOf answer) else none)

/-- The result of the missing-glue fallback loop over the nameserver
hostnames (resolver.go lines 196-222): the `newServersFound` flag, the
accumulated `servers`, the round-trip counter, the hostnames for which a
sub-resolution was issued (in order), and whether a panic occurred. -/
structure FallbackRes where
  found : Bool
  servers : List IP
  ctr : Nat
  subs : List String
  panicked : Bool
deriving DecidableEq

/-- The missing-glue fallback loop (resolver.go lines 199-221).  Go keeps
iterating after `newServersFound` flips but the guard
`if !newServersFound` makes the remaining iterations no-ops, so the
`found = true` case returns directly.  `MustNewName nameserver` panics when
`newNameOk` fails; a sub-resolution error is logged and skipped; a
sub-resolution success sets the flag and appends the A-typed answer
addresses. -/
def fallbackLoop (recur : Recur) : List String → Bool → List IP → Nat → FallbackRes
  | [], found, servers, ctr => ⟨found, servers, ctr, [], false⟩
  | nameserver :: rest, found, servers, ctr =>
    if found then ⟨found, servers, ctr, [], false⟩
    else if !newNameOk nameserver then ⟨found, servers, ctr, [], true⟩
    else
      match recur (nsQuestion nameserver) ctr with
      | (.panicked, c1) => ⟨found, servers, c1, [nameserver], true⟩
      | (.err _, c1) =>
        let r := fallbackLoop recur rest found servers c1
        ⟨r.found, r.servers, r.ctr, nameserver :: r.subs, r.panicked⟩
      | (.ok m, c1) =>
        let r := fallbackLoop recur rest true (servers ++ aAnswerIPs m.answers) c1
        ⟨r.found, r.servers, r.ctr, nameserver :: r.subs, r.panicked⟩

/-- What one loop iteration of `dnsQuery` produces: a terminal outcome
(`Sum.inl`) or the server set for the next round (`Sum.inr`), the new
round-trip counter and the sub-resolved hostnames of this round. -/
structure RoundRes where
  next : Sum Outcome (List IP)
  ctr : Nat
  subs : List String

/-- The body of one `dnsQuery` loop iteration after a reply was received
and parsed (resolver.go lines 135-222): authoritative reply returns the
resolved message; empty authority section returns the NameError message;
otherwise glue matching, and on empty glue the recursive fallback. -/
def roundStepReply (recur : Recur) (c1 : Nat) (reply : UpstreamReply) : RoundRes :=
  if reply.header.authoritative then
    ⟨.inl (.ok (resolvedMessage reply.answers)), c1, []⟩
  else if reply.authorities.isEmpty then
    ⟨.inl (.ok nameErrorMessage), c1, []⟩
  else
    let nameservers := nameserversOf reply.authorities
    let glue := glueServers nameservers reply.additionals
    if glue.isEmpty then
      let r := fallbackLoop recur nameservers false [] c1
      if r.panicked then ⟨.inl .panicked, r.ctr, r.subs⟩
      else ⟨.inr r.servers, r.ctr, r.subs⟩
    else ⟨.inr glue, c1, []⟩

/-- One loop iteration of `dnsQuery` (resolver.go lines 121-223): the
transport call, whose failure returns the error from `dnsQuery` itself
(lines 124-127), then `roundStepReply`. -/
def roundStep (recur : Recur) (oracle : Oracle) (ctr : Nat) (servers : List IP)
    (question : Question) : RoundRes :=
  match outgoingDnsQuery oracle ctr servers question with
  | (.error e, c1) => ⟨.inl (.err e), c1, []⟩
  | (.ok reply, c1) => roundStepReply recur c1 reply

/-- One `dnsQuery` call, instrumented: the outcome, the final round-trip
counter, the number of loop iterations entered at this level, and the
hostnames sub-resolved at this level in order. -/
structure QueryTrace where
  outcome : Outcome
  ctr : Nat
  rounds : Nat
  subs : List String

/-- The `for i := 0; i < 3; i++` loop of `dnsQuery` with `n` iterations
left; falling off the loop returns the ServerFailure message (resolver.go
lines 226-230). -/
def dnsLoop (recur : Recur) (oracle : Oracle) :
    Nat → Nat → List IP → Question → QueryTrace
  | 0, ctr, _, _ => ⟨.ok serverFailureMessage, ctr, 0, []⟩
  | n + 1, ctr, servers, question =>
    match roundStep recur oracle ctr servers question with
    | ⟨.inl outcome, c1, subs⟩ => ⟨outcome, c1, 1, subs⟩
    | ⟨.inr servers1, c1, subs⟩ =>
      let t := dnsLoop recur oracle n c1 servers1 question
      ⟨t.outcome, t.ctr, t.rounds + 1, subs ++ t.subs⟩

/-- `dnsQuery` (resolver.go lines 117-231).  `fuel` bounds only the
recursion depth of the missing-glue fallback (see the file header); each
sub-resolution starts again from `getRootServers`, exactly as line 201
does. -/
def dnsQuery : Nat → Oracle → Nat → List IP → Question → QueryTrace
  | 0, _, ctr, _, _ => ⟨.err .fuelExhausted, ctr, 0, []⟩
  | fuel + 1, oracle, ctr, servers, question =>
    dnsLoop
      (fun q c =>
        let t := dnsQuery fuel oracle c getRootServers q
        (t.outcome, t.ctr))
      oracle 3 ctr servers question

/-- `handlePacket` (resolver.go lines 234-272) from the point where the
client packet has been parsed into a header and one question: resolve from
the root servers, overwrite the response's transaction ID with the
client's, pack and send.  `none` models every path on which no datagram is
written back (resolution error, or a panic unwinding the goroutine). -/
def handlePacket (fuel : Nat) (oracle : Oracle) (clientHeader : Header)
    (question : Question) : Option Message :=
  match (dnsQuery fuel oracle 0 getRootServers question).outcome with
  | .ok response =>
    some { response with header := { response.header with id := clientHeader.id } }
  | _ => none

/-- A sub-resolver that always fails; used to instantiate `Recur` binders
in witnesses. -/
def stubRecur : Recur := fun _ c => (.err .fuelExhausted, c)

/-- Concrete question for the C1 scenario. -/
def c1question : Question := ⟨"example.org.", typeA, classINET⟩

/-- A SOA record (type code 6), i.e. an authority record that is not an NS
record. -/
def c1soa : Resource := ⟨"example.org.", .other 6⟩

/-- A non-authoritative reply whose authority section holds only the SOA
record: zero NS records, but a non-empty authority section. -/
def c1reply : UpstreamReply := ⟨emptyHeader, [], [c1soa], []⟩

/-- Environment for the C1 counterexample: the first round-trip yields
`c1reply`. -/
def c1oracle : Oracle := fun n => if n == 0 then .ok c1reply else .error (.netErr 0)

/-- A non-authoritative reply with an empty authority section (the
NameError case). -/
def c1wreply : UpstreamReply := ⟨emptyHeader, [], [], []⟩

/-- Environment that always answers with the empty-authority reply. -/
def c1woracle : Oracle := fun _ => .ok c1wreply

/-- Concrete question for the C2 scenario. -/
def c2question : Question := ⟨"example.com.", typeA, classINET⟩

/-- First delegated nameserver of the C2 scenario. -/
def c2ns1 : Resource := ⟨"com.", .ns "ns1.example."⟩

/-- Second delegated nameserver of the C2 scenario. -/
def c2ns2 : Resource := ⟨"com.", .ns "ns2.example."⟩

/-- A non-authoritative delegation reply with two NS records and no glue. -/
def c2reply0 : UpstreamReply := ⟨emptyHeader, [], [c2ns1, c2ns2], []⟩

/-- An authoritative reply with an empty answer section: the sub-resolution
for the first nameserver returns without error but with zero A-typed
answers. -/
def c2reply1 : UpstreamReply := ⟨{ emptyHeader with authoritative := true }, [], [], []⟩

/-- Environment for the C2 counterexample. -/
def c2oracle : Oracle := fun n =>
  if n == 0 then .ok c2reply0 else if n == 1 then .ok c2reply1 else .error (.netErr 0)

/-- Sub-resolver for the C2 witness: fails on the hostname `a.`, succeeds
with an answerless message on everything else. -/
def c2wrecur : Recur := fun q c =>
  if q.name == "a." then (.err (.netErr 1), c + 1)
  else (.ok (resolvedMessage []), c + 1)

/-- Concrete question for the C3 scenario (the spec's example scenario). -/
def c3question : Question := ⟨"example.com.", typeA, classINET⟩

/-- The authoritative answer record of the spec's example scenario. -/
def c3answer : Resource := ⟨"example.com.", .a [93, 184, 216, 34]⟩

/-- An authoritative reply carrying the single answer record. -/
def c3reply : UpstreamReply := ⟨{ emptyHeader with authoritative := true }, [c3answer], [], []⟩

/-- Environment for the C3 scenario. -/
def c3oracle : Oracle := fun n => if n == 0 then .ok c3reply else .error (.netErr 0)

/-- Concrete question for the C4 witness. -/
def c4question : Question := ⟨"example.com.", typeA, classINET⟩

/-- A non-authoritative delegation reply with one NS record and matching
glue: each round advances without terminating. -/
def c4reply : UpstreamReply :=
  ⟨emptyHeader, [], [⟨"com.", .ns "a.gtld-servers.net."⟩],
   [⟨"a.gtld-servers.net.", .a [192, 5, 6, 30]⟩]⟩

/-- Environment that delegates forever: resolution exhausts its 3 rounds. -/
def c4oracle : Oracle := fun _ => .ok c4reply

/-- Concrete question for the C5 witness. -/
def c5question : Question := ⟨"example.com.", typeA, classINET⟩

/-- A non-authoritative reply with an empty authority section: the
resolution terminates with the NameError message. -/
def c5reply : UpstreamReply := ⟨emptyHeader, [], [], []⟩

/-- Environment for the C5 witness. -/
def c5oracle : Oracle := fun _ => .ok c5reply

/-- The client header of the C5 witness, with transaction ID 4660. -/
def c5header : Header := { emptyHeader with id := 4660 }

/-- The datagram written back in the C5 witness: the NameError message with
the client's transaction ID. -/
def c5result : Message :=
  { nameErrorMessage with header := { nameErrorMessage.header with id := 4660 } }

/-- Concrete question for the C7 witness. -/
def c7question : Question := ⟨"example.com.", typeA, classINET⟩

/-- Environment for the C7 witness (never consulted: the server list is
empty, so the dial loop fails first). -/
def c7oracle : Oracle := fun _ => .error (.netErr 0)

/-- Concrete question for the C8 witness. -/
def c8question : Question := ⟨"example.com.", typeA, classINET⟩

/-- A delegation reply with one NS record and matching glue for it. -/
def c8reply : UpstreamReply :=
  ⟨emptyHeader, [], [⟨"com.", .ns "a.gtld-servers.net."⟩],
   [⟨"a.gtld-servers.net.", .a [192, 5, 6, 30]⟩]⟩

/-- Environment for the C8 witness. -/
def c8oracle : Oracle := fun _ => .ok c8reply

/-- Concrete question for the C9 scenario. -/
def c9question : Question := ⟨"example.net.", typeA, classINET⟩

/-- A SOA record: an authority record that is not an NS record. -/
def c9soa : Resource := ⟨"example.net.", .other 6⟩

/-- A non-authoritative reply whose non-empty authority section holds only
the SOA record, with no glue: the input the claim describes. -/
def c9reply : UpstreamReply := ⟨emptyHeader, [], [c9soa], []⟩

/-- Environment for the C9 counterexample. -/
def c9oracle : Oracle := fun n => if n == 0 then .ok c9reply else .error (.netErr 0)

/-- Concrete question for the C10 witness. -/
def c10question : Question := ⟨"example.com.", typeA, classINET⟩

/-- Environment for the C10 witness: empty authority section, so the
resolution returns the NameError message. -/
def c10oracle : Oracle := fun _ => .ok ⟨emptyHeader, [], [], []⟩

/-- With a packable question name and a non-empty server list, the
transport consults the environment and consumes one round-trip. -/
theorem outgoing_ok (oracle : Oracle) (ctr : Nat) (servers : List IP) (q : Question)
    (h1 : packableName q.name = true) (h2 : servers ≠ []) :
    outgoingDnsQuery oracle ctr servers q = (oracle ctr, ctr + 1) := by
  cases servers with
  | nil => exact absurd rfl h2
  | cons a l => simp [outgoingDnsQuery, h1]

/-- A round whose transport succeeded is the reply-processing body. -/
theorem roundStep_eq_ok (recur : Recur) (oracle : Oracle) (ctr : Nat) (servers : List IP)
    (q : Question) (reply : UpstreamReply) (c1 : Nat)
    (h : outgoingDnsQuery oracle ctr servers q = (.ok reply, c1)) :
    roundStep recur oracle ctr servers q = roundStepReply recur c1 reply := by
  unfold roundStep
  rw [h]

/-- A round whose transport failed terminates with that error. -/
theorem roundStep_eq_err (recur : Recur) (oracle : Oracle) (ctr : Nat) (servers : List IP)
    (q : Question) (e : DnsErr) (c1 : Nat)
    (h : outgoingDnsQuery oracle ctr servers q = (.error e, c1)) :
    roundStep recur oracle ctr servers q = ⟨.inl (.err e), c1, []⟩ := by
  unfold roundStep
  rw [h]

/-- Once `newServersFound` is set, the remaining fallback iterations are
no-ops. -/
theorem fallbackLoop_found (recur : Recur) (rest : List String) (servers : List IP) (c : Nat) :
    fallbackLoop recur rest true servers c = ⟨true, servers, c, [], false⟩ := by
  cases rest <;> rfl

/-- The only messages a round can terminate with are the resolved message
and the NameError message. -/
theorem roundStepReply_inl_ok (recur : Recur) (c1 : Nat) (reply : UpstreamReply)
    (m : Message) (c2 : Nat) (subs : List String)
    (h : roundStepReply recur c1 reply = ⟨.inl (.ok m), c2, subs⟩) :
    m = resolvedMessage reply.answers ∨ m = nameErrorMessage := by
  unfold roundStepReply at h
  split at h
  · injection h with hnext hctr hsubs
    injection hnext with hout
    injection hout with hm
    exact Or.inl hm.symm
  · split at h
    · injection h with hnext hctr hsubs
      injection hnext with hout
      injection hout with hm
      exact Or.inr hm.symm
    · dsimp only at h
      split at h
      · split at h
        · injection h with hnext hctr hsubs
          injection hnext with hout
          cases hout
        · injection h with hnext hctr hsubs
          cases hnext
      · injection h with hnext hctr hsubs
        cases hnext

/-- `roundStep` version of `roundStepReply_inl_ok`. -/
theorem roundStep_inl_ok (recur : Recur) (oracle : Oracle) (ctr : Nat) (servers : List IP)
    (q : Question) (m : Message) (c1 : Nat) (subs : List String)
    (h : roundStep recur oracle ctr servers q = ⟨.inl (.ok m), c1, subs⟩) :
    m = resolvedMessage m.answers ∨ m = nameErrorMessage := by
  unfold roundStep at h
  rcases ho : outgoingDnsQuery oracle ctr servers q with ⟨res, c⟩
  rw [ho] at h
  cases res with
  | error e =>
    injection h with hnext hctr hsubs
    injection hnext with hout
    cases hout
  | ok reply =>
    rcases roundStepReply_inl_ok recur c reply m c1 subs h with h1 | h1
    · subst h1; exact Or.inl rfl
    · exact Or.inr h1

/-- Unfolding `dnsQuery` at positive fuel. -/
theorem dnsQuery_succ (fuel : Nat) (oracle : Oracle) (ctr : Nat) (servers : List IP)
    (question : Question) :
    dnsQuery (fuel + 1) oracle ctr servers question =
      dnsLoop
        (fun q c =>
          let t := dnsQuery fuel oracle c getRootServers q
          (t.outcome, t.ctr))
        oracle 3 ctr servers question := by
  simp only [dnsQuery]

/-- A loop iteration that reached a terminal ends the loop there. -/
theorem dnsLoop_succ_inl (recur : Recur) (oracle : Oracle) (n ctr : Nat) (servers : List IP)
    (q : Question) (outcome : Outcome) (c1 : Nat) (subs : List String)
    (h : roundStep recur oracle ctr servers q = ⟨.inl outcome, c1, subs⟩) :
    dnsLoop recur oracle (n + 1) ctr servers q = ⟨outcome, c1, 1, subs⟩ := by
  simp only [dnsLoop]
  rw [h]

/-- A loop iteration that produced a next server set recurses on it. -/
theorem dnsLoop_succ_inr (recur : Recur) (oracle : Oracle) (n ctr : Nat) (servers : List IP)
    (q : Question) (servers1 : List IP) (c1 : Nat) (subs : List String)
    (h : roundStep recur oracle ctr servers q = ⟨.inr servers1, c1, subs⟩) :
    dnsLoop recur oracle (n + 1) ctr servers q =
      ⟨(dnsLoop recur oracle n c1 servers1 q).outcome,
       (dnsLoop recur oracle n c1 servers1 q).ctr,
       (dnsLoop recur oracle n c1 servers1 q).rounds + 1,
       subs ++ (dnsLoop recur oracle n c1 servers1 q).subs⟩ := by
  simp only [dnsLoop]
  rw [h]

/-- The loop enters at most as many iterations as its budget. -/
theorem dnsLoop_rounds_le (recur : Recur) (oracle : Oracle) :
    ∀ (n ctr : Nat) (servers : List IP) (q : Question),
      (dnsLoop recur oracle n ctr servers q).rounds ≤ n := by
  intro n
  induction n with
  | zero => intro ctr servers q; exact Nat.le_refl 0
  | succ n ih =>
    intro ctr servers q
    rcases hr : roundStep recur oracle ctr servers q with ⟨next, c1, subs⟩
    cases next with
    | inl outcome =>
      rw [dnsLoop_succ_inl recur oracle n ctr servers q outcome c1 subs hr]
      exact Nat.succ_le_succ (Nat.zero_le n)
    | inr servers1 =>
      rw [dnsLoop_succ_inr recur oracle n ctr servers q servers1 c1 subs hr]
      exact Nat.succ_le_succ (ih c1 servers1 q)

/-- Every message the loop returns is one of the three terminal shapes. -/
theorem dnsLoop_ok_shape (recur : Recur) (oracle : Oracle) :
    ∀ (n ctr : Nat) (servers : List IP) (q : Question) (m : Message),
      (dnsLoop recur oracle n ctr servers q).outcome = .ok m →
      m = resolvedMessage m.answers ∨ m = nameErrorMessage ∨ m = serverFailureMessage := by
  intro n
  induction n with
  | zero =>
    intro ctr servers q m h
    injection h with hm
    exact Or.inr (Or.inr hm.symm)
  | succ n ih =>
    intro ctr servers q m h
    rcases hr : roundStep recur oracle ctr servers q with ⟨next, c1, subs⟩
    cases next with
    | inl outcome =>
      rw [dnsLoop_succ_inl recur oracle n ctr servers q outcome c1 subs hr] at h
      rcases roundStep_inl_ok recur oracle ctr servers q m c1 subs (h ▸ hr) with h1 | h1
      · exact Or.inl h1
      · exact Or.inr (Or.inl h1)
    | inr servers1 =>
      rw [dnsLoop_succ_inr recur oracle n ctr servers q servers1 c1 subs hr] at h
      exact ih c1 servers1 q m h

/-- A transport failure at the current round is the loop's result. -/
theorem dnsLoop_err_first (recur : Recur) (oracle : Oracle) (n ctr : Nat) (servers : List IP)
    (question : Question) (e : DnsErr) (c1 : Nat)
    (h : outgoingDnsQuery oracle ctr servers question = (.error e, c1)) :
    (dnsLoop recur oracle (n + 1) ctr servers question).outcome = .err e := by
  rw [dnsLoop_succ_inl recur oracle n ctr servers question (.err e) c1 []
    (roundStep_eq_err recur oracle ctr servers question e c1 h)]

/-- The glue scan collects exactly the addresses of A records in the
additional section whose owner name equals one of the nameserver hostnames
(exact string equality). -/
theorem glueServers_mem (nameservers : List String) :
    ∀ (adds : List Resource) (ip : IP),
      ip ∈ glueServers nameservers adds ↔
        ∃ r, r ∈ adds ∧ r.rtype = typeA ∧ r.name ∈ nameservers ∧ ip = ipOf r := by
  intro adds
  induction adds with
  | nil => intro ip; simp [glueServers]
  | cons additional rest ih =>
    intro ip
    simp only [glueServers, List.mem_append, ih, List.mem_cons]
    constructor
    · rintro (h | ⟨r, hr, h1, h2, h3⟩)
      · split at h
        · rcases List.mem_filterMap.mp h with ⟨ns, hns, hsome⟩
          split at hsome
          · injection hsome with hip
            refine ⟨additional, Or.inl rfl, by simpa using ‹(additional.rtype == typeA) = true›,
              ?_, hip.symm⟩
            have hname : additional.name = ns := by
              simpa using ‹(additional.name == ns) = true›
            rw [hname]; exact hns
          · cases hsome
        · cases h
      · exact ⟨r, Or.inr hr, h1, h2, h3⟩
    · rintro ⟨r, hmem | hmem, h1, h2, h3⟩
      · left
        subst hmem
        rw [if_pos (by simpa using h1)]
        exact List.mem_filterMap.mpr ⟨r.name, h2, by rw [if_pos (by simp), h3]⟩
      · exact Or.inr ⟨r, hmem, h1, h2, h3⟩

/-- Claim C1, counterexample: a non-authoritative reply whose authority
section holds exactly one SOA record (zero NS records, authority section
non-empty).  The claim says this yields NameError; the code instead goes on
to delegation handling and this run ends with a connect error, not with the
NameError message. -/
theorem c1_counterexample :
    (c1reply.authorities.filter (fun a => a.rtype == typeNS)).length = 0 ∧
    c1reply.header.authoritative = false ∧
    (dnsQuery 2 c1oracle 0 getRootServers c1question).outcome = .err .connectErr ∧
    (dnsQuery 2 c1oracle 0 getRootServers c1question).outcome ≠ .ok nameErrorMessage := by
  refine ⟨rfl, rfl, by decide, by decide⟩

/-- Claim C1, amended: for a non-authoritative upstream reply, a round of
the resolution engine terminates with the NameError message (result code
NameError, empty answer section) exactly when the *authority section is
empty* — not when it merely contains zero NS records. -/
theorem c1_theorem (recur : Recur) (oracle : Oracle) (ctr : Nat) (servers : List IP)
    (question : Question) (reply : UpstreamReply)
    (h1 : packableName question.name = true) (h2 : servers ≠ [])
    (h3 : oracle ctr = .ok reply) (h4 : reply.header.authoritative = false) :
    (((roundStep recur oracle ctr servers question).next = .inl (.ok nameErrorMessage)) ↔
      reply.authorities = []) ∧
    nameErrorMessage.header.rcode = rcodeNameError ∧
    nameErrorMessage.answers = [] := by
  have ho : outgoingDnsQuery oracle ctr servers question = (.ok reply, ctr + 1) := by
    rw [outgoing_ok oracle ctr servers question h1 h2, h3]
  rw [roundStep_eq_ok recur oracle ctr servers question reply (ctr + 1) ho]
  refine ⟨?_, rfl, rfl⟩
  unfold roundStepReply
  rw [if_neg (by rw [h4]; exact Bool.false_ne_true)]
  cases hA : reply.authorities with
  | nil => simp
  | cons a rest =>
    simp only [List.isEmpty_cons, Bool.false_eq_true, if_false]
    constructor
    · intro hcontra
      split at hcontra
      · split at hcontra
        · exact absurd (Sum.inl.inj hcontra) (by intro hc; cases hc)
        · cases hcontra
      · cases hcontra
    · intro hcontra
      cases hcontra

/-- Claim C1, witness for `c1_theorem`: concrete empty-authority reply. -/
theorem c1_witness :
    packableName c1question.name = true ∧ getRootServers ≠ [] ∧
    c1woracle 0 = Except.ok c1wreply ∧ c1wreply.header.authoritative = false ∧
    ((((roundStep stubRecur c1woracle 0 getRootServers c1question).next =
        .inl (.ok nameErrorMessage)) ↔ c1wreply.authorities = []) ∧
      nameErrorMessage.header.rcode = rcodeNameError ∧
      nameErrorMessage.answers = []) := by
  have h1 : packableName c1question.name = true := by decide
  have h2 : getRootServers ≠ [] := by decide
  have h3 : c1woracle 0 = Except.ok c1wreply := rfl
  have h4 : c1wreply.header.authoritative = false := rfl
  exact ⟨h1, h2, h3, h4,
    c1_theorem stubRecur c1woracle 0 getRootServers c1question c1wreply h1 h2 h3 h4⟩

/-- Claim C2, counterexample: two delegated nameservers, no glue; the
sub-resolution for the first returns without error but with an *empty*
answer section (zero A-type answers).  The claim says this must not stop
the probing; the code stops anyway — the second nameserver is never
sub-resolved (the trace's sub-resolution list is just the first
hostname). -/
theorem c2_counterexample :
    c2oracle 1 = .ok c2reply1 ∧
    c2reply1.answers = [] ∧
    (dnsQuery 2 c2oracle 0 getRootServers c2question).subs = ["ns1.example."] := by
  exact ⟨rfl, rfl, by decide⟩

/-- Claim C2, amended: sub-resolutions are issued in order and stop as
soon as one *returns without error* — regardless of whether its answer
section contains any A-type answer; a sub-resolution that fails with an
error does not stop the probing of the remaining hostnames. -/
theorem c2_theorem (recur : Recur) (ctr cA cB : Nat) (ns1 ns2 : String)
    (rest : List String) (e : DnsErr) (m : Message)
    (h1 : newNameOk ns1 = true) (h2 : newNameOk ns2 = true)
    (h3 : recur (nsQuestion ns1) ctr = (.err e, cA))
    (h4 : recur (nsQuestion ns2) cA = (.ok m, cB)) :
    (fallbackLoop recur (ns1 :: ns2 :: rest) false [] ctr).subs = [ns1, ns2] ∧
    (fallbackLoop recur (ns1 :: ns2 :: rest) false [] ctr).servers = aAnswerIPs m.answers ∧
    (fallbackLoop recur (ns1 :: ns2 :: rest) false [] ctr).found = true := by
  have key : fallbackLoop recur (ns1 :: ns2 :: rest) false [] ctr =
      ⟨true, aAnswerIPs m.answers, cB, [ns1, ns2], false⟩ := by
    simp only [fallbackLoop, Bool.false_eq_true, if_false, h1, h2, h3, h4,
      Bool.not_true, fallbackLoop_found, List.nil_append]
  rw [key]
  exact ⟨rfl, rfl, rfl⟩

/-- Claim C2, witness for `c2_theorem`: a concrete sub-resolver failing on
`a.` and succeeding (with no answers) on `b.`; the hostname `c.` is never
probed. -/
theorem c2_witness :
    newNameOk "a." = true ∧ newNameOk "b." = true ∧
    c2wrecur (nsQuestion "a.") 0 = (.err (.netErr 1), 1) ∧
    c2wrecur (nsQuestion "b.") 1 = (.ok (resolvedMessage []), 2) ∧
    ((fallbackLoop c2wrecur ["a.", "b.", "c."] false [] 0).subs = ["a.", "b."] ∧
     (fallbackLoop c2wrecur ["a.", "b.", "c."] false [] 0).servers =
       aAnswerIPs (resolvedMessage []).answers ∧
     (fallbackLoop c2wrecur ["a.", "b.", "c."] false [] 0).found = true) := by
  have h1 : newNameOk "a." = true := by decide
  have h2 : newNameOk "b." = true := by decide
  have h3 : c2wrecur (nsQuestion "a.") 0 = (.err (.netErr 1), 1) := rfl
  have h4 : c2wrecur (nsQuestion "b.") 1 = (.ok (resolvedMessage []), 2) := rfl
  exact ⟨h1, h2, h3, h4,
    c2_theorem c2wrecur 0 1 2 "a." "b." ["c."] (.netErr 1) (resolvedMessage []) h1 h2 h3 h4⟩

/-- Claim C3, counterexample: an authoritative reply with one answer
record.  The engine does return a message with the Response flag set and
that answer section, but its Authoritative flag is *unset* — the claim
says it is set. -/
theorem c3_counterexample :
    (dnsQuery 1 c3oracle 0 getRootServers c3question).outcome =
      .ok (resolvedMessage [c3answer]) ∧
    (resolvedMessage [c3answer]).header.authoritative = false ∧
    (resolvedMessage [c3answer]).header.response = true ∧
    (resolvedMessage [c3answer]).answers = [c3answer] :=
  ⟨rfl, rfl, rfl, rfl⟩

/-- Claim C3, amended: on an authoritative upstream reply the engine
terminates in the first round with a synthesized message whose Response
flag is set and whose answer section equals the reply's answer section —
but whose Authoritative flag is *not* set (the code only sets
`Response: true`). -/
theorem c3_theorem (fuel : Nat) (oracle : Oracle) (ctr : Nat) (servers : List IP)
    (question : Question) (reply : UpstreamReply)
    (h1 : packableName question.name = true) (h2 : servers ≠ [])
    (h3 : oracle ctr = .ok reply) (h4 : reply.header.authoritative = true) :
    (dnsQuery (fuel + 1) oracle ctr servers question).outcome =
      .ok (resolvedMessage reply.answers) ∧
    (resolvedMessage reply.answers).header.response = true ∧
    (resolvedMessage reply.answers).answers = reply.answers ∧
    (resolvedMessage reply.answers).header.authoritative = false := by
  have ho : outgoingDnsQuery oracle ctr servers question = (.ok reply, ctr + 1) := by
    rw [outgoing_ok oracle ctr servers question h1 h2, h3]
  have hr : ∀ recur : Recur, roundStep recur oracle ctr servers question =
      ⟨.inl (.ok (resolvedMessage reply.answers)), ctr + 1, []⟩ := by
    intro recur
    rw [roundStep_eq_ok recur oracle ctr servers question reply (ctr + 1) ho]
    unfold roundStepReply
    rw [if_pos h4]
  rw [dnsQuery_succ]
  rw [show (dnsLoop
      (fun q c =>
        let t := dnsQuery fuel oracle c getRootServers q
        (t.outcome, t.ctr)) oracle 3 ctr servers question) =
    ⟨.ok (resolvedMessage reply.answers), ctr + 1, 1, []⟩ from
    dnsLoop_succ_inl _ oracle 2 ctr servers question _ (ctr + 1) [] (hr _)]
  exact ⟨rfl, rfl, rfl, rfl⟩

/-- Claim C3, witness for `c3_theorem`: the spec's example scenario reply
`A = 93.184.216.34`. -/
theorem c3_witness :
    packableName c3question.name = true ∧ getRootServers ≠ [] ∧
    c3oracle 0 = Except.ok c3reply ∧ c3reply.header.authoritative = true ∧
    ((dnsQuery 1 c3oracle 0 getRootServers c3question).outcome =
        .ok (resolvedMessage c3reply.answers) ∧
     (resolvedMessage c3reply.answers).header.response = true ∧
     (resolvedMessage c3reply.answers).answers = c3reply.answers ∧
     (resolvedMessage c3reply.answers).header.authoritative = false) := by
  have h1 : packableName c3question.name = true := by decide
  have h2 : getRootServers ≠ [] := by decide
  have h3 : c3oracle 0 = Except.ok c3reply := rfl
  have h4 : c3reply.header.authoritative = true := rfl
  exact ⟨h1, h2, h3, h4,
    c3_theorem 0 c3oracle 0 getRootServers c3question c3reply h1 h2 h3 h4⟩

/-- Claim C4 (confirmed): for any question, any environment and any
recursion fuel, a top-level resolution enters at most 3 loop iterations
(one Transport call each at the top level), and any message it returns is
the resolved message, the NameError message, or — when neither terminal
was reached — the ServerFailure message; transport errors are excluded by
the `.ok` hypothesis. -/
theorem c4_theorem (fuel : Nat) (oracle : Oracle) (ctr : Nat) (servers : List IP)
    (question : Question) :
    (dnsQuery fuel oracle ctr servers question).rounds ≤ 3 ∧
    ∀ m, (dnsQuery fuel oracle ctr servers question).outcome = .ok m →
      m = resolvedMessage m.answers ∨ m = nameErrorMessage ∨ m = serverFailureMessage := by
  cases fuel with
  | zero => exact ⟨Nat.zero_le 3, fun m h => nomatch h⟩
  | succ fuel =>
    constructor
    · rw [dnsQuery_succ]
      exact dnsLoop_rounds_le _ oracle 3 ctr servers question
    · intro m h
      rw [dnsQuery_succ] at h
      exact dnsLoop_ok_shape _ oracle 3 ctr servers question m h

/-- Claim C4, witness for `c4_theorem`: an environment that delegates with
glue forever; the run uses exactly 3 rounds and returns the ServerFailure
message. -/
theorem c4_witness :
    ((dnsQuery 1 c4oracle 0 getRootServers c4question).rounds ≤ 3 ∧
     ∀ m, (dnsQuery 1 c4oracle 0 getRootServers c4question).outcome = .ok m →
       m = resolvedMessage m.answers ∨ m = nameErrorMessage ∨ m = serverFailureMessage) ∧
    (dnsQuery 1 c4oracle 0 getRootServers c4question).outcome = .ok serverFailureMessage ∧
    (dnsQuery 1 c4oracle 0 getRootServers c4question).rounds = 3 := by
  exact ⟨c4_theorem 1 c4oracle 0 getRootServers c4question, rfl, rfl⟩

/-- Claim C5 (confirmed): whenever `handlePacket` writes a reply back, the
reply's transaction ID equals the client request's transaction ID,
whatever IDs the upstream queries used. -/
theorem c5_theorem (fuel : Nat) (oracle : Oracle) (clientHeader : Header)
    (question : Question) (m : Message)
    (h : handlePacket fuel oracle clientHeader question = some m) :
    m.header.id = clientHeader.id := by
  unfold handlePacket at h
  rcases ho : (dnsQuery fuel oracle 0 getRootServers question).outcome with mm | e | _
  · rw [ho] at h
    injection h with h2
    rw [← h2]
  · rw [ho] at h
    cases h
  · rw [ho] at h
    cases h

/-- Claim C5, witness for `c5_theorem`: a client request with transaction
ID 4660 resolved to NameError; the reply carries ID 4660. -/
theorem c5_witness :
    handlePacket 1 c5oracle c5header c5question = some c5result ∧
    c5result.header.id = c5header.id := by
  have h : handlePacket 1 c5oracle c5header c5question = some c5result := rfl
  exact ⟨h, c5_theorem 1 c5oracle c5header c5question c5result h⟩

/-- Claim C6 (code bug): `rand.Int(rand.Reader, 65535)` is uniform on
`[0, 65535)` — the bound is *exclusive* — so the transaction ID 65535
(`0xFFFF`) can never be drawn and only 65535 of the 65536 16-bit values
are possible, contradicting “uniformly at random from the full 16-bit
space”.  Every value below 65535 is attainable (`outgoingId 65534`), and
the random source value 65535 wraps to ID 0. -/
theorem c6_theorem :
    (∀ r, outgoingId r ≠ outgoingIdMax) ∧
    (∀ r question, (buildQueryMessage r question).header.id ≠ outgoingIdMax) ∧
    outgoingId 65534 = 65534 ∧ outgoingId 65535 = 0 := by
  have hpos : 0 < outgoingIdMax := by decide
  refine ⟨fun r => ?_, fun r question => ?_, rfl, rfl⟩
  · exact Nat.ne_of_lt (Nat.mod_lt r hpos)
  · show outgoingId r % 65536 ≠ outgoingIdMax
    have h1 : outgoingId r < outgoingIdMax := Nat.mod_lt r hpos
    have h2 : outgoingId r % 65536 = outgoingId r :=
      Nat.mod_eq_of_lt (Nat.lt_trans h1 (by decide))
    rw [h2]
    exact Nat.ne_of_lt h1

/-- Claim C7 (confirmed): at any remaining round budget, if the Transport
call of the current round fails, the whole resolution returns exactly that
error — it is never converted into the ServerFailure message.  The second
conjunct instantiates this for the full 3-round top-level loop of
`dnsQuery`. -/
theorem c7_theorem (fuel : Nat) (recur : Recur) (oracle : Oracle) (n ctr : Nat)
    (servers : List IP) (question : Question) (e : DnsErr) (c1 : Nat)
    (h : outgoingDnsQuery oracle ctr servers question = (.error e, c1)) :
    (dnsLoop recur oracle (n + 1) ctr servers question).outcome = .err e ∧
    (dnsQuery (fuel + 1) oracle ctr servers question).outcome = .err e ∧
    (dnsLoop recur oracle (n + 1) ctr servers question).outcome ≠ .ok serverFailureMessage := by
  have h1 := dnsLoop_err_first recur oracle n ctr servers question e c1 h
  refine ⟨h1, ?_, ?_⟩
  · rw [dnsQuery_succ]
    exact dnsLoop_err_first _ oracle 2 ctr servers question e c1 h
  · rw [h1]
    intro hc
    cases hc

/-- Claim C7, witness for `c7_theorem`: an empty server set makes the dial
loop fail; the resolution returns the connect error. -/
theorem c7_witness :
    outgoingDnsQuery c7oracle 0 [] c7question = (Except.error DnsErr.connectErr, 0) ∧
    ((dnsLoop stubRecur c7oracle (2 + 1) 0 [] c7question).outcome = .err .connectErr ∧
     (dnsQuery (0 + 1) c7oracle 0 [] c7question).outcome = .err .connectErr ∧
     (dnsLoop stubRecur c7oracle (2 + 1) 0 [] c7question).outcome ≠
       .ok serverFailureMessage) := by
  have h : outgoingDnsQuery c7oracle 0 [] c7question = (Except.error DnsErr.connectErr, 0) := rfl
  exact ⟨h, c7_theorem 0 stubRecur c7oracle 2 0 [] c7question DnsErr.connectErr 0 h⟩

/-- Claim C8 (confirmed): for a non-authoritative reply with NS records,
the glue scan matches A records of the additional section against the
delegated hostnames by exact (hence case-sensitive) string equality of the
owner name, each match contributing its address; and when at least one
glue address was found the round advances with exactly those addresses and
issues *no* recursive sub-resolution (the round's sub-resolution list is
empty). -/
theorem c8_theorem (recur : Recur) (oracle : Oracle) (ctr : Nat) (servers : List IP)
    (question : Question) (reply : UpstreamReply)
    (h1 : packableName question.name = true) (h2 : servers ≠ [])
    (h3 : oracle ctr = .ok reply) (h4 : reply.header.authoritative = false)
    (h5 : reply.authorities ≠ [])
    (h6 : glueServers (nameserversOf reply.authorities) reply.additionals ≠ []) :
    roundStep recur oracle ctr servers question =
      ⟨.inr (glueServers (nameserversOf reply.authorities) reply.additionals), ctr + 1, []⟩ ∧
    ∀ ip, ip ∈ glueServers (nameserversOf reply.authorities) reply.additionals ↔
      ∃ r, r ∈ reply.additionals ∧ r.rtype = typeA ∧
        r.name ∈ nameserversOf reply.authorities ∧ ip = ipOf r := by
  have ho : outgoingDnsQuery oracle ctr servers question = (.ok reply, ctr + 1) := by
    rw [outgoing_ok oracle ctr servers question h1 h2, h3]
  have hAempty : reply.authorities.isEmpty = false := by
    cases hA : reply.authorities with
    | nil => exact absurd hA h5
    | cons a rest => rfl
  have hGempty : (glueServers (nameserversOf reply.authorities) reply.additionals).isEmpty
      = false := by
    cases hG : glueServers (nameserversOf reply.authorities) reply.additionals with
    | nil => exact absurd hG h6
    | cons a rest => rfl
  constructor
  · rw [roundStep_eq_ok recur oracle ctr servers question reply (ctr + 1) ho]
    unfold roundStepReply
    rw [if_neg (by rw [h4]; exact Bool.false_ne_true)]
    rw [if_neg (by rw [hAempty]; exact Bool.false_ne_true)]
    dsimp only
    rw [if_neg (by rw [hGempty]; exact Bool.false_ne_true)]
  · exact glueServers_mem (nameserversOf reply.authorities) reply.additionals

/-- Claim C8, witness for `c8_theorem`: one NS record with matching glue
`192.5.6.30`. -/
theorem c8_witness :
    packableName c8question.name = true ∧ getRootServers ≠ [] ∧
    c8oracle 0 = Except.ok c8reply ∧ c8reply.header.authoritative = false ∧
    c8reply.authorities ≠ [] ∧
    glueServers (nameserversOf c8reply.authorities) c8reply.additionals ≠ [] ∧
    (roundStep stubRecur c8oracle 0 getRootServers c8question =
       ⟨.inr (glueServers (nameserversOf c8reply.authorities) c8reply.additionals), 1, []⟩ ∧
     ∀ ip, ip ∈ glueServers (nameserversOf c8reply.authorities) c8reply.additionals ↔
       ∃ r, r ∈ c8reply.additionals ∧ r.rtype = typeA ∧
         r.name ∈ nameserversOf c8reply.authorities ∧ ip = ipOf r) := by
  have h1 : packableName c8question.name = true := by decide
  have h2 : getRootServers ≠ [] := by decide
  have h3 : c8oracle 0 = Except.ok c8reply := rfl
  have h4 : c8reply.header.authoritative = false := rfl
  have h5 : c8reply.authorities ≠ [] := by decide
  have h6 : glueServers (nameserversOf c8reply.authorities) c8reply.additionals ≠ [] := by
    decide
  exact ⟨h1, h2, h3, h4, h5, h6,
    c8_theorem stubRecur c8oracle 0 getRootServers c8question c8reply h1 h2 h3 h4 h5 h6⟩

/-- Claim C9, counterexample: the claimed input (non-authoritative,
non-empty authority section containing a non-NS record, no glue).  The
empty-string nameserver slot *is* sub-resolved (so `MustNewName ""` did
not panic — `NewName` fails only for names over 255 bytes), and the
resolution *does* return: it fails with a connect error on the emptied
server set, and in particular does not panic. -/
theorem c9_counterexample :
    (dnsQuery 2 c9oracle 0 getRootServers c9question).subs = [""] ∧
    (dnsQuery 2 c9oracle 0 getRootServers c9question).outcome = .err .connectErr ∧
    (dnsQuery 2 c9oracle 0 getRootServers c9question).outcome ≠ .panicked := by
  refine ⟨by decide, by decide, by decide⟩

/-- Claim C9, amended: with a non-NS record among the authorities, the
nameserver list does contain an empty-string entry and the missing-glue
fallback does issue a sub-resolution for it; but `MustNewName ""` succeeds
(`NewName` fails only for names longer than 255 bytes), and the sub-query
instead fails deterministically when the query message is packed (an empty
name is non-canonical), which the fallback logs and skips — so the
resolution returns normally (here: with an error) instead of panicking. -/
theorem c9_theorem (auths : List Resource) (r : Resource)
    (h1 : r ∈ auths) (h2 : r.rtype ≠ typeNS) :
    "" ∈ nameserversOf auths ∧ newNameOk "" = true ∧
    ∀ (oracle : Oracle) (ctr : Nat) (servers : List IP),
      outgoingDnsQuery oracle ctr servers (nsQuestion "") = (.error .packErr, ctr) := by
  refine ⟨?_, rfl, fun oracle ctr servers => rfl⟩
  have hzero : (if r.rtype == typeNS then nsHost r else "") = "" := by
    rw [if_neg]
    intro hb
    exact h2 (by simpa using hb)
  unfold nameserversOf
  exact List.mem_map.mpr ⟨r, h1, hzero⟩

/-- Claim C9, witness for `c9_theorem`: the singleton SOA authority
section. -/
theorem c9_witness :
    c9soa ∈ [c9soa] ∧ c9soa.rtype ≠ typeNS ∧
    ("" ∈ nameserversOf [c9soa] ∧ newNameOk "" = true ∧
     ∀ (oracle : Oracle) (ctr : Nat) (servers : List IP),
       outgoingDnsQuery oracle ctr servers (nsQuestion "") = (.error .packErr, ctr)) := by
  have h1 : c9soa ∈ [c9soa] := by decide
  have h2 : c9soa.rtype ≠ typeNS := by decide
  exact ⟨h1, h2, c9_theorem [c9soa] c9soa h1 h2⟩

/-- Claim C10 (confirmed): any message the engine returns whose result
code is NameError or ServerFailure has the Response flag unset, transaction
ID 0, Authoritative flag unset, and empty question, answer, authority and
additional sections — it is the all-zero message except for its result
code. -/
theorem c10_theorem (fuel : Nat) (oracle : Oracle) (ctr : Nat) (servers : List IP)
    (question : Question) (m : Message)
    (h1 : (dnsQuery fuel oracle ctr servers question).outcome = .ok m)
    (h2 : m.header.rcode = rcodeNameError ∨ m.header.rcode = rcodeServerFailure) :
    m.header.response = false ∧ m.header.id = 0 ∧ m.header.authoritative = false ∧
    m.questions = [] ∧ m.answers = [] ∧ m.authorities = [] ∧ m.additionals = [] ∧
    (m = nameErrorMessage ∨ m = serverFailureMessage) := by
  have hshape : m = resolvedMessage m.answers ∨ m = nameErrorMessage ∨
      m = serverFailureMessage := by
    cases fuel with
    | zero => exact nomatch h1
    | succ fuel =>
      rw [dnsQuery_succ] at h1
      exact dnsLoop_ok_shape _ oracle 3 ctr servers question m h1
  rcases hshape with hm | hm | hm
  · exfalso
    rw [hm] at h2
    have hz : (resolvedMessage m.answers).header.rcode = 0 := rfl
    rcases h2 with h2 | h2
    · rw [hz] at h2
      exact absurd h2 (by decide)
    · rw [hz] at h2
      exact absurd h2 (by decide)
  · subst hm
    exact ⟨rfl, rfl, rfl, rfl, rfl, rfl, rfl, Or.inl rfl⟩
  · subst hm
    exact ⟨rfl, rfl, rfl, rfl, rfl, rfl, rfl, Or.inr rfl⟩

/-- Claim C10, witness for `c10_theorem`: a NameError run. -/
theorem c10_witness :
    (dnsQuery 1 c10oracle 0 getRootServers c10question).outcome = .ok nameErrorMessage ∧
    (nameErrorMessage.header.rcode = rcodeNameError ∨
     nameErrorMessage.header.rcode = rcodeServerFailure) ∧
    (nameErrorMessage.header.response = false ∧ nameErrorMessage.header.id = 0 ∧
     nameErrorMessage.header.authoritative = false ∧
     nameErrorMessage.questions = [] ∧ nameErrorMessage.answers = [] ∧
     nameErrorMessage.authorities = [] ∧ nameErrorMessage.additionals = [] ∧
     (nameErrorMessage = nameErrorMessage ∨ nameErrorMessage = serverFailureMessage)) := by
  have h1 : (dnsQuery 1 c10oracle 0 getRootServers c10question).outcome =
      .ok nameErrorMessage := rfl
  have h2 : nameErrorMessage.header.rcode = rcodeNameError ∨
      nameErrorMessage.header.rcode = rcodeServerFailure := Or.inl rfl
  exact ⟨h1, h2, c10_theorem 1 c10oracle 0 getRootServers c10question nameErrorMessage h1 h2⟩

end DnsServer
